import Mathlib

/-!
# Verification of the `SalesDataCleaner` real-estate cleaning pipeline

Shallow embedding of `src/SalesDataCleaner.py`. Tables are lists of rows;
each cell is `Option`-valued (`none` models a pandas null, i.e. `NaN`/`None`).
Python floats are modelled by exact rationals (`Rat`): every float literal and
comparison appearing in the pipeline (`== 0.0`, `> 0.0`, `> 4`) is exact on the
decimal values the code manipulates. Python `int`s and `float`s holding the
same value compare equal under `==`, so both are embedded into `Rat`.

Scope notes, recorded once here:
* `postcode` is a string column in the source, but every read of it is through
  `int(postcode)` and every write is a decimal-digit string, so postcode cells
  are embedded by their integer reading.
* CPython `float(...)`/`int(...)` string parsing is modelled on the grammar
  `[sign] digits [. digits] [e [sign] digits]` with surrounding whitespace;
  exotic literal forms (`inf`, `nan`, hexadecimal, `_` digit separators,
  non-ASCII digits) are out of scope, as are non-ASCII case foldings of
  `str.upper` — none occur in the spec's examples or the claims.
* `extract_postcodes` in the source calls `re.findall` on `row.locality`; when
  both `postcode` and `locality` are null that raises `TypeError` and the whole
  run aborts, producing no cleaned table at all.  The embedding totalises this
  single point (a null locality yields no recovered postcode), which only adds
  behaviour on inputs where the source produces no output table, so every
  universally quantified statement about output rows is unaffected.
-/

/- `Rat` arithmetic must evaluate inside `decide` proofs, so the library's
irreducibility markers on the four arithmetic primitives are lifted. -/
set_option allowUnsafeReducibility true
attribute [semireducible] Rat.add Rat.mul Rat.inv Rat.sub Rat.ofScientific

/-- A dynamically typed Python scalar, as received by the scalar parsers. -/
inductive PyVal where
  | str (s : String)
  | bool (b : Bool)
  | int (n : Int)
  | float (q : Rat)
  | pynone
  deriving DecidableEq, Repr

deriving instance DecidableEq for Except

/-- Value of a decimal-digit character run (callers guarantee digits). -/
def digitsVal (cs : List Char) : Nat :=
  cs.foldl (fun a c => 10 * a + (c.toNat - 48)) 0

/-- A non-empty all-digit run parsed as a natural number, else `none`. -/
def intOfDigits? (cs : List Char) : Option Nat :=
  if cs ≠ [] ∧ cs.all Char.isDigit then some (digitsVal cs) else none

/-- Model of `[sign] digit+` parsed as an integer (shared by `int()` and exponents). -/
def signedDigits? : List Char → Option Int
  | '+' :: ds => (intOfDigits? ds).map Int.ofNat
  | '-' :: ds => (intOfDigits? ds).map (fun n => -(n : Int))
  | ds => (intOfDigits? ds).map Int.ofNat

/-- Strip leading and trailing whitespace from a character list. -/
def trimChars (cs : List Char) : List Char :=
  ((cs.dropWhile Char.isWhitespace).reverse.dropWhile Char.isWhitespace).reverse

/-- CPython `int(x)` on a string: optional surrounding whitespace, optional
sign, decimal digits; `none` models the `ValueError`. -/
def pyInt? (s : String) : Option Int :=
  signedDigits? (trimChars s.toList)

/-- Model of `digit* [. digit*]` with at least one digit in total, as a rational. -/
def pyFrac? (ip fp : List Char) : Option Rat :=
  if (ip.all Char.isDigit ∧ fp.all Char.isDigit) ∧ (ip ≠ [] ∨ fp ≠ []) then
    some ((digitsVal ip : Rat) + (digitsVal fp : Rat) / (10 : Rat) ^ fp.length)
  else none

/-- Mantissa of a float literal: digits, optionally split by one `.`. -/
def pyMantissa? (cs : List Char) : Option Rat :=
  match cs.dropWhile (fun c => c != '.') with
  | [] => pyFrac? (cs.takeWhile (fun c => c != '.')) []
  | _ :: fp => pyFrac? (cs.takeWhile (fun c => c != '.')) fp

/-- Unsigned float literal: mantissa with an optional `e`/`E` exponent. -/
def pyUnsigned? (cs : List Char) : Option Rat :=
  match cs.dropWhile (fun c => c != 'e' && c != 'E') with
  | [] => pyMantissa? cs
  | _ :: ex =>
    match pyMantissa? (cs.takeWhile (fun c => c != 'e' && c != 'E')),
          signedDigits? ex with
    | some q, some e => some (q * (10 : Rat) ^ e)
    | _, _ => none

/-- CPython `float(x)` on a string; `none` models the `ValueError`. -/
def pyFloat? (s : String) : Option Rat :=
  match trimChars s.toList with
  | '+' :: cs => pyUnsigned? cs
  | '-' :: cs => (pyUnsigned? cs).map Neg.neg
  | cs => pyUnsigned? cs

/-- Model of `needle` is a prefix of `hay` (character lists). -/
def isPre : List Char → List Char → Bool
  | [], _ => true
  | _ :: _, [] => false
  | a :: as, b :: bs => a == b && isPre as bs

/-- Model of `needle` occurs as a contiguous run inside `hay`. -/
def containsSeq (hay needle : List Char) : Bool :=
  match hay with
  | [] => needle.isEmpty
  | _ :: rest => isPre needle hay || containsSeq rest needle

/-- Python's `needle in hay` substring test. -/
def containsSub (hay needle : String) : Bool :=
  containsSeq hay.toList needle.toList

/-- Model of `SalesDataCleaner.price_converter`:
`re.sub(r'^\D+','',·)` then `re.sub(r'\D+$','',·)` strip the maximal leading
and trailing non-digit runs; `re.sub(r'€(.|\D)*$','',·)` erases everything
from the first `€` to the end; commas are removed; the remainder goes through
`float(...)`, with the `ValueError` caught as `None`. -/
def price_converter (s : String) : Option Rat :=
  let cs1 := s.toList.dropWhile (fun c => !c.isDigit)
  let cs2 := (cs1.reverse.dropWhile (fun c => !c.isDigit)).reverse
  let cs3 := cs2.takeWhile (fun c => c != '€')
  pyFloat? (String.mk (cs3.filter (fun c => c != ',')))

/-- Python `str.upper` (ASCII model). -/
def upperStr (s : String) : String :=
  String.mk (s.toList.map Char.toUpper)

/-- Model of `SalesDataCleaner.bool_or_keep`.  The `isinstance(x, str)` branch matches
`'1'`, case-insensitive `'TRUE'`, `'0'`, case-insensitive `'FALSE'` and leaves
`output = None` for every other string.  For every non-string input the next
test `x.isnumeric()` is an attribute access that raises `AttributeError`
(`bool`, `int`, `float` and `NoneType` have no `isnumeric`); the surrounding
`except ValueError` does not catch it, so the call aborts — the
`isinstance(x, bool)` branch below it is unreachable. -/
def bool_or_keep : PyVal → Except String (Option Bool)
  | .str s =>
    if s = "1" ∨ upperStr s = "TRUE" then .ok (some true)
    else if s = "0" ∨ upperStr s = "FALSE" then .ok (some false)
    else .ok none
  | _ => .error "AttributeError"

/-- The value held by an `area` cell: a number, or the literal Python `False`
that `area_remove_m2` returns for ambiguous multi-token inputs. -/
inductive AreaVal where
  | num (q : Rat)
  | ambig
  deriving DecidableEq, Repr

/-- Accumulator pass behind `x.split()`: whitespace-separated tokens. -/
def tokensAux : List Char → List Char → List (List Char)
  | [], acc => if acc.isEmpty then [] else [acc.reverse]
  | c :: rest, acc =>
    if c.isWhitespace then
      if acc.isEmpty then tokensAux rest [] else acc.reverse :: tokensAux rest []
    else tokensAux rest (c :: acc)

/-- Model of `x.split()`: split on whitespace runs, dropping empty pieces. -/
def splitTokens (s : String) : List (List Char) :=
  tokensAux s.toList []

/-- Python `str.isdigit`: non-empty and all digits. -/
def isDigitToken (t : List Char) : Bool :=
  !t.isEmpty && t.all Char.isDigit

/-- Model of `[int(s) for s in x.split() if s.isdigit()]`. -/
def areaNumbers (s : String) : List Nat :=
  ((splitTokens s).filter isDigitToken).map digitsVal

/-- Model of `SalesDataCleaner.area_remove_m2`: try `int(x)` first; on `ValueError`,
collect the digit-only tokens — one token gives its value, none gives `None`,
and more than one gives the literal `False` sentinel. -/
def area_remove_m2 (s : String) : Option AreaVal :=
  match pyInt? s with
  | some n => some (.num (n : Rat))
  | none =>
    match areaNumbers s with
    | [n] => some (.num (n : Rat))
    | [] => none
    | _ => some .ambig

example : price_converter "€ 1,234.00 end" = some 1234 := by decide
example : price_converter "no digits" = none := by decide
example : bool_or_keep (.str "TRUE") = .ok (some true) := by decide
example : bool_or_keep (.str "maybe") = .ok none := by decide
example : bool_or_keep (.bool true) = .error "AttributeError" := by decide
example : area_remove_m2 "12 34" = some .ambig := by decide
example : area_remove_m2 "120" = some (.num 120) := by decide
example : area_remove_m2 "about 120 m2" = some (.num 120) := by decide

/-! ## The table model

A table is a list of rows.  Each field is one column's cell; `none` is the
pandas null.  The two derived columns (`region`, `building_state_agg`) exist
from the start of the embedding but are overwritten unconditionally by their
producing steps, so their initial value is irrelevant. -/

structure Row where
  source : Option Int
  hyperlink : Option String
  locality : Option String
  postcode : Option Int
  house_is : Option Bool
  property_subtype : Option String
  sale : Option String
  rooms_number : Option Rat
  garden_area : Option Rat
  land_surface : Option Rat
  facades_number : Option Rat
  building_state : Option String
  kitchen_has : Option Bool
  furnished : Option Bool
  open_fire : Option Bool
  terrace : Option Bool
  garden : Option Bool
  swimming_pool_has : Option Bool
  terrace_area : Option Rat
  land_plot_surface : Option Rat
  area : Option AreaVal
  price : Option Rat
  region : Option String
  building_state_agg : Option String
  deriving DecidableEq, Repr

/-- Model of `drop('hyperlink', axis='columns')`. -/
def delete_hyperlink_column (t : List Row) : List Row :=
  t.map fun r => { r with hyperlink := none }

/-- Model of `drop('land_plot_surface', axis='columns')`. -/
def delete_land_plot_surface_column (t : List Row) : List Row :=
  t.map fun r => { r with land_plot_surface := none }

/-- First substring of `cs` matching `[1-9][0-9][0-9][0-9]` (the
`legal_belgian_postcode_pattern` of `extract_postcodes`), as its value. -/
def findFour : List Char → Option Int
  | [] => none
  | c :: rest =>
    match rest with
    | c1 :: c2 :: c3 :: _ =>
      if ('1' ≤ c ∧ c ≤ '9') ∧ (c1.isDigit ∧ c2.isDigit ∧ c3.isDigit) then
        some (digitsVal [c, c1, c2, c3])
      else findFour rest
    | _ => none

/-- Model of `SalesDataCleaner.extract_postcodes`: when `postcode` is null, recover the
first legal 4-digit token of `locality`, else leave the row unchanged.
A null `locality` makes the source raise `TypeError` (header note). -/
def extract_postcodes (r : Row) : Row :=
  if r.postcode = none then
    match r.locality with
    | some loc => { r with postcode := findFour loc.toList }
    | none => r
  else r

/-- Model of `merge_postcodes_localities_columns`: apply `extract_postcodes` row-wise,
then drop `locality`. -/
def merge_postcodes_localities_columns (t : List Row) : List Row :=
  t.map fun r => { extract_postcodes r with locality := none }

/-- Model of `SalesDataCleaner.to_region`. -/
def to_region : Option Int → Option String
  | none => none
  | some p =>
    if 1000 ≤ p ∧ p ≤ 1299 then some "B"
    else if (1300 ≤ p ∧ p ≤ 1499) ∨ (4000 ≤ p ∧ p ≤ 7999) then some "W"
    else some "F"

/-- Model of `add_region_column`: `sales_data['region'] = postcode.map(to_region)`. -/
def add_region_column (t : List Row) : List Row :=
  t.map fun r => { r with region := to_region r.postcode }

/-- The foreign/irrelevant subtype denylist of `clean_property_subtype_column`. -/
def to_be_deleted_subtypes : List String :=
  ["Wohnung", "Triplexwohnung", "Sonstige", "Loft / �tico",
   "Loft / Dachgeschoss", "Loft / Attic", "Gewerbe", "Etagenwohnung",
   "Erdgeschoss", "Attico", "Appartamento duplex", "Apartamento",
   "Altbauwohnung", "HOUSE_GROUP", "APARTMENT_GROUP"]

/-- Model of `clean_property_subtype_column`, per cell.  Three passes in the source:
denylist members → null; cells of numeric type → null (in this string column
only null cells are floats, a null-to-null no-op); cells whose `str(x)`
contains `"sqft"` → null (`str(None) = 'None'` never contains it). -/
def clean_property_subtype_row (r : Row) : Row :=
  match r.property_subtype with
  | some s =>
    if s ∈ to_be_deleted_subtypes ∨ containsSub s "sqft" = true then
      { r with property_subtype := none }
    else r
  | none => r

def clean_property_subtype_column (t : List Row) : List Row :=
  t.map clean_property_subtype_row

/-- Model of `clean_price_column`, per cell: `x == 0.0` cells become null
(`NaN == 0.0` is `False`, so null cells are untouched). -/
def clean_price_row (r : Row) : Row :=
  match r.price with
  | some q => if q = 0 then { r with price := none } else r
  | none => r

def clean_price_column (t : List Row) : List Row :=
  t.map clean_price_row

/-- Model of `sale.str.contains('annuity', na=False)` for one row. -/
def sale_has_annuity (r : Row) : Bool :=
  match r.sale with
  | some s => containsSub s "annuity"
  | none => false

/-- Model of `clean_sale_column`: drop the rows whose `sale` contains `'annuity'`. -/
def clean_sale_column (t : List Row) : List Row :=
  t.filter fun r => !sale_has_annuity r

/-- Model of `drop('sale', axis='columns')`. -/
def delete_sale_column (t : List Row) : List Row :=
  t.map fun r => { r with sale := none }

/-- Python `x == 0.0` on an `area` cell: the `False` sentinel compares equal
to `0.0`; `NaN == 0.0` and `None == 0.0` are `False`. -/
def areaEqZero : Option AreaVal → Bool
  | some (.num q) => q == 0
  | some .ambig => true
  | none => false

/-- Model of `clean_area_column`, per cell. -/
def clean_area_row (r : Row) : Row :=
  if areaEqZero r.area then { r with area := none } else r

def clean_area_column (t : List Row) : List Row :=
  t.map clean_area_row

/-- Python `x > 0.0` on a float cell (`NaN > 0.0` is `False`). -/
def ratPos : Option Rat → Bool
  | some q => decide (0 < q)
  | none => false

/-- Model of `SalesDataCleaner.copy_from_land_surface`. -/
def copy_from_land_surface (r : Row) : Row :=
  if areaEqZero r.area && ratPos r.land_surface then
    { r with area := r.land_surface.map AreaVal.num }
  else r

def clean_area_land_surface_columns (t : List Row) : List Row :=
  t.map copy_from_land_surface

/-- The four vocabularies of `categorize_state`. -/
def to_renovate_vocab : List String :=
  ["TO_RENOVATE", "TO_BE_DONE_UP", "TO_RESTORE", "old",
   "To renovate", "To be done up", "To restore"]

def good_vocab : List String := ["GOOD", "Good", "AS_NEW", "As new"]

def renovated_vocab : List String := ["JUST_RENOVATED", "Just renovated"]

def new_vocab : List String := ["New"]

/-- Model of `SalesDataCleaner.categorize_state` (a null cell is in no vocabulary, so
it keeps the default `None` category). -/
def categorize_state : Option String → Option String
  | some v =>
    if v ∈ to_renovate_vocab then some "to_renovate"
    else if v ∈ good_vocab then some "good"
    else if v ∈ renovated_vocab then some "renovated"
    else if v ∈ new_vocab then some "new"
    else none
  | none => none

/-- Model of `clean_building_state_column`, per row: derive `building_state_agg`,
then drop `building_state`. -/
def clean_building_state_row (r : Row) : Row :=
  { r with building_state_agg := categorize_state r.building_state,
           building_state := none }

def clean_building_state_column (t : List Row) : List Row :=
  t.map clean_building_state_row

/-- The `drop_duplicates` subset key `(postcode, house_is, price, area)`.
pandas considers two null cells equal when matching duplicates, as does
`Option` equality here. -/
abbrev DupKey := Option Int × Option Bool × Option Rat × Option AreaVal

def dedupKey (r : Row) : DupKey :=
  (r.postcode, r.house_is, r.price, r.area)

/-- One pass of `drop_duplicates`: keep a row iff its key was not seen. -/
def dedupGo (seen : List DupKey) : List Row → List Row
  | [] => []
  | r :: rs =>
    if dedupKey r ∈ seen then dedupGo seen rs
    else r :: dedupGo (dedupKey r :: seen) rs

/-- Model of `remove_duplicate_records`. -/
def remove_duplicate_records (t : List Row) : List Row :=
  dedupGo [] t

/-- The columns still present when `dropna` runs: `hyperlink`,
`land_plot_surface`, `locality`, `sale` and `building_state` have been
dropped by earlier steps, so `dropna` consults exactly these nineteen. -/
def rowComplete (r : Row) : Bool :=
  r.source.isSome && r.postcode.isSome && r.house_is.isSome &&
  r.property_subtype.isSome && r.rooms_number.isSome && r.garden_area.isSome &&
  r.land_surface.isSome && r.facades_number.isSome && r.kitchen_has.isSome &&
  r.furnished.isSome && r.open_fire.isSome && r.terrace.isSome &&
  r.garden.isSome && r.swimming_pool_has.isSome && r.terrace_area.isSome &&
  r.area.isSome && r.price.isSome && r.region.isSome &&
  r.building_state_agg.isSome

/-- Model of `remove_na_records`: `dropna(axis=0)`. -/
def remove_na_records (t : List Row) : List Row :=
  t.filter rowComplete

/-- Model of `rename(columns=...)`: `kitchen_has` becomes `equipped_kitchen_has`.
A pure relabelling: cell values are untouched, so on this model it is the
identity (the field keeps its slot). -/
def rename_kitchen_column (t : List Row) : List Row := t

/-- Model of `clean_facades_number_column`, per cell: `x == 0 or x > 4` cells become
null; both comparisons are `False` on `NaN`, so null cells stay null. -/
def clean_facades_number_row (r : Row) : Row :=
  match r.facades_number with
  | some q => if q = 0 ∨ 4 < q then { r with facades_number := none } else r
  | none => r

def clean_facades_number_column (t : List Row) : List Row :=
  t.map clean_facades_number_row

/-- Model of `SalesDataCleaner.clean`, in the exact call order of the source (the
post-ingestion table pipeline; the guard flag and the re-read are outside the
table transformation). -/
def clean (t : List Row) : List Row :=
  clean_facades_number_column (rename_kitchen_column (remove_na_records
    (remove_duplicate_records (clean_building_state_column
    (clean_area_land_surface_columns (clean_area_column (delete_sale_column
    (clean_sale_column (clean_price_column (clean_property_subtype_column
    (add_region_column (merge_postcodes_localities_columns
    (delete_land_plot_surface_column (delete_hyperlink_column t))))))))))))))

/-! ## Step enumeration

One constructor per table transform invoked by `clean`, to talk about the
order of application.  `runPipeline` folds an order over a table. -/

inductive Step where
  | delHyperlink
  | delLandPlot
  | mergePostcodes
  | addRegion
  | cleanSubtype
  | cleanPrice
  | saleRowFilter
  | delSale
  | areaZeroToNull
  | areaCopyFromLand
  | buildingState
  | dedupRecords
  | dropNaRecords
  | renameKitchen
  | facadesRange
  deriving DecidableEq, Repr

def runStep : Step → List Row → List Row
  | .delHyperlink => delete_hyperlink_column
  | .delLandPlot => delete_land_plot_surface_column
  | .mergePostcodes => merge_postcodes_localities_columns
  | .addRegion => add_region_column
  | .cleanSubtype => clean_property_subtype_column
  | .cleanPrice => clean_price_column
  | .saleRowFilter => clean_sale_column
  | .delSale => delete_sale_column
  | .areaZeroToNull => clean_area_column
  | .areaCopyFromLand => clean_area_land_surface_columns
  | .buildingState => clean_building_state_column
  | .dedupRecords => remove_duplicate_records
  | .dropNaRecords => remove_na_records
  | .renameKitchen => rename_kitchen_column
  | .facadesRange => clean_facades_number_column

def runPipeline (order : List Step) (t : List Row) : List Row :=
  order.foldl (fun acc s => runStep s acc) t

/-- The order in which `clean` calls the transforms (source lines 27–55). -/
def codeStepOrder : List Step :=
  [.delHyperlink, .delLandPlot, .mergePostcodes, .addRegion, .cleanSubtype,
   .cleanPrice, .saleRowFilter, .delSale, .areaZeroToNull, .areaCopyFromLand,
   .buildingState, .dedupRecords, .dropNaRecords, .renameKitchen,
   .facadesRange]

/-- The order listed in spec §4.3: the `building_state_agg` derivation
(spec step 6) sits before the annuity row filter (7) and the area steps
(8, 9). -/
def specStepOrder : List Step :=
  [.delHyperlink, .delLandPlot, .mergePostcodes, .addRegion, .cleanSubtype,
   .cleanPrice, .buildingState, .saleRowFilter, .delSale, .areaZeroToNull,
   .areaCopyFromLand, .dedupRecords, .dropNaRecords, .renameKitchen,
   .facadesRange]

/-! ## Concrete rows used by witnesses and counterexamples -/

/-- A fully populated row that survives every filter unchanged (modulo the
dropped columns and the two derived columns). -/
def baseRow : Row where
  source := some 1
  hyperlink := some "http"
  locality := some "Loc"
  postcode := some 1000
  house_is := some true
  property_subtype := some "HOUSE"
  sale := some "normal"
  rooms_number := some 3
  garden_area := some 10
  land_surface := some 100
  facades_number := some 2
  building_state := some "Good"
  kitchen_has := some true
  furnished := some false
  open_fire := some false
  terrace := some true
  garden := some false
  swimming_pool_has := some false
  terrace_area := some 5
  land_plot_surface := some 50
  area := some (.num 50)
  price := some 200000
  region := none
  building_state_agg := none

/-- What `clean` makes of `baseRow`. -/
def baseOut : Row :=
  { baseRow with
      hyperlink := none, land_plot_surface := none, locality := none,
      sale := none, building_state := none,
      region := some "B", building_state_agg := some "good" }

example : clean [baseRow] = [baseOut] := by decide
example : clean [{ baseRow with facades_number := some 5 }]
    = [{ baseOut with facades_number := none }] := by decide
example :
    clean [{ baseRow with area := some (.num 0), land_surface := some 120 }]
    = [] := by decide
example : clean [{ baseRow with facades_number := some (-1) }]
    = [{ baseOut with facades_number := some (-1) }] := by decide
example : clean [baseRow, baseRow] = [baseOut] := by decide
example : clean [{ baseRow with sale := some "life annuity sale" }] = [] := by
  decide

/-! ## General list helpers -/

theorem forall_mem_map_of {α : Type} (P : α → Prop) (f : α → α)
    (hf : ∀ x, P x → P (f x)) {l : List α} (H : ∀ x ∈ l, P x) :
    ∀ x ∈ l.map f, P x := by
  intro x hx
  rcases List.mem_map.1 hx with ⟨x₀, hx₀, rfl⟩
  exact hf _ (H _ hx₀)

theorem forall_mem_filter_of {α : Type} {p : α → Bool} {P : α → Prop}
    {l : List α} (H : ∀ x ∈ l, P x) : ∀ x ∈ l.filter p, P x := by
  intro x hx
  exact H _ (List.mem_of_mem_filter hx)

theorem filter_map_comm {α : Type} (f : α → α) (p : α → Bool)
    (hp : ∀ x, p (f x) = p x) (l : List α) :
    (l.map f).filter p = (l.filter p).map f := by
  induction l with
  | nil => rfl
  | cons x xs ih =>
    simp only [List.map_cons, List.filter_cons, hp x]
    cases p x <;> simp [ih]

theorem map_map_comm {α : Type} (f g : α → α) (h : ∀ x, f (g x) = g (f x))
    (l : List α) : (l.map g).map f = (l.map f).map g := by
  simp only [List.map_map]
  exact List.map_congr_left (fun x _ => h x)

/-! ## Properties of the duplicate filter -/

theorem dedupGo_sublist (seen : List DupKey) (l : List Row) :
    (dedupGo seen l).Sublist l := by
  induction l generalizing seen with
  | nil => simp [dedupGo]
  | cons r rs ih =>
    unfold dedupGo
    split
    · exact (ih seen).cons r
    · exact (ih _).cons₂ r

theorem mem_of_mem_dedupGo {seen : List DupKey} {l : List Row} {r : Row}
    (h : r ∈ dedupGo seen l) : r ∈ l :=
  (dedupGo_sublist seen l).subset h

theorem dedupGo_key_not_seen {seen : List DupKey} {l : List Row} {r : Row}
    (h : r ∈ dedupGo seen l) : dedupKey r ∉ seen := by
  induction l generalizing seen with
  | nil => simp [dedupGo] at h
  | cons x xs ih =>
    unfold dedupGo at h
    split at h
    · exact ih h
    · rcases List.mem_cons.1 h with rfl | h'
      · assumption
      · intro contra
        exact ih h' (List.mem_cons_of_mem _ contra)

theorem dedupGo_pairwise (seen : List DupKey) (l : List Row) :
    (dedupGo seen l).Pairwise (fun a b => dedupKey a ≠ dedupKey b) := by
  induction l generalizing seen with
  | nil => exact List.Pairwise.nil
  | cons x xs ih =>
    unfold dedupGo
    split
    · exact ih seen
    · refine List.Pairwise.cons ?_ (ih _)
      intro b hb he
      exact dedupGo_key_not_seen hb (he ▸ List.mem_cons_self _ _)

theorem dedupGo_first_occurrence {seen : List DupKey} {l : List Row} {r : Row}
    (h : r ∈ dedupGo seen l) :
    l.find? (fun x => dedupKey x == dedupKey r) = some r := by
  induction l generalizing seen with
  | nil => simp [dedupGo] at h
  | cons x xs ih =>
    unfold dedupGo at h
    split at h
    · have hkr : dedupKey r ∉ seen := dedupGo_key_not_seen h
      have hne : (dedupKey x == dedupKey r) = false := by
        refine beq_eq_false_iff_ne.2 ?_
        intro he
        exact hkr (he ▸ (by assumption))
      simp only [List.find?, hne]
      exact ih h
    · rcases List.mem_cons.1 h with rfl | h'
      · simp [List.find?]
      · have hkr : dedupKey r ∉ (dedupKey x :: seen) := dedupGo_key_not_seen h'
        have hne : (dedupKey x == dedupKey r) = false := by
          refine beq_eq_false_iff_ne.2 ?_
          intro he
          exact hkr (he ▸ List.mem_cons_self _ _)
        simp only [List.find?, hne]
        exact ih h'

theorem dedupGo_covers {seen : List DupKey} {l : List Row} {r0 : Row}
    (h0 : r0 ∈ l) (hs : dedupKey r0 ∉ seen) :
    ∃ rk, rk ∈ dedupGo seen l ∧ dedupKey rk = dedupKey r0 := by
  induction l generalizing seen with
  | nil => simp at h0
  | cons x xs ih =>
    unfold dedupGo
    rcases List.mem_cons.1 h0 with rfl | h0'
    · split
      · exact absurd (by assumption) hs
      · exact ⟨r0, List.mem_cons_self _ _, rfl⟩
    · split
      · exact ih h0' hs
      · by_cases he : dedupKey r0 = dedupKey x
        · exact ⟨x, List.mem_cons_self _ _, he.symm⟩
        · rcases ih h0' (by
            intro contra
            rcases List.mem_cons.1 contra with hc | hc
            · exact he hc
            · exact hs hc) with ⟨rk, hrk, hke⟩
          exact ⟨rk, List.mem_cons_of_mem _ hrk, hke⟩

/-! ## Row-level facts -/

/-- The invariant established by `add_region_column` and preserved by every
later step: `region` is exactly `to_region` of `postcode`. -/
def regionOk (r : Row) : Prop :=
  r.region = to_region r.postcode

theorem regionOk_subtype_row {r : Row} (h : regionOk r) :
    regionOk (clean_property_subtype_row r) := by
  unfold regionOk clean_property_subtype_row at *
  split
  · split_ifs <;> exact h
  · exact h

theorem regionOk_price_row {r : Row} (h : regionOk r) :
    regionOk (clean_price_row r) := by
  unfold regionOk clean_price_row at *
  split
  · split_ifs <;> exact h
  · exact h

theorem regionOk_area_row {r : Row} (h : regionOk r) :
    regionOk (clean_area_row r) := by
  unfold regionOk clean_area_row at *
  split_ifs <;> exact h

theorem regionOk_copy_row {r : Row} (h : regionOk r) :
    regionOk (copy_from_land_surface r) := by
  unfold regionOk copy_from_land_surface at *
  split_ifs <;> exact h

theorem regionOk_bs_row {r : Row} (h : regionOk r) :
    regionOk (clean_building_state_row r) := h

theorem regionOk_facades_row {r : Row} (h : regionOk r) :
    regionOk (clean_facades_number_row r) := by
  unfold regionOk clean_facades_number_row at *
  split
  · split_ifs <;> exact h
  · exact h

/-- Model of `clean_facades_number_row` does not touch the duplicate key. -/
theorem dedupKey_facades_row (r : Row) :
    dedupKey (clean_facades_number_row r) = dedupKey r := by
  unfold clean_facades_number_row
  split
  · split_ifs <;> rfl
  · rfl

/-! ## Commuting the `building_state` step with the sale/area steps -/

theorem bs_saleF_comm (t : List Row) :
    clean_building_state_column (clean_sale_column t)
    = clean_sale_column (clean_building_state_column t) := by
  unfold clean_building_state_column clean_sale_column
  exact (filter_map_comm clean_building_state_row
    (fun r => !sale_has_annuity r) (fun r => rfl) t).symm

theorem bs_delSale_comm (t : List Row) :
    clean_building_state_column (delete_sale_column t)
    = delete_sale_column (clean_building_state_column t) := by
  unfold clean_building_state_column delete_sale_column
  exact map_map_comm clean_building_state_row
    (fun r => { r with sale := none }) (fun r => rfl) t

theorem areaRow_bs_row_comm (r : Row) :
    clean_area_row (clean_building_state_row r)
    = clean_building_state_row (clean_area_row r) := by
  unfold clean_area_row clean_building_state_row
  by_cases h : areaEqZero r.area = true <;> simp [h]

theorem bs_areaZ_comm (t : List Row) :
    clean_building_state_column (clean_area_column t)
    = clean_area_column (clean_building_state_column t) := by
  unfold clean_building_state_column clean_area_column
  exact map_map_comm clean_building_state_row clean_area_row
    (fun r => (areaRow_bs_row_comm r).symm) t

theorem copyRow_bs_row_comm (r : Row) :
    copy_from_land_surface (clean_building_state_row r)
    = clean_building_state_row (copy_from_land_surface r) := by
  unfold copy_from_land_surface clean_building_state_row
  by_cases h : (areaEqZero r.area && ratPos r.land_surface) = true <;> simp [h]

theorem bs_copy_comm (t : List Row) :
    clean_building_state_column (clean_area_land_surface_columns t)
    = clean_area_land_surface_columns (clean_building_state_column t) := by
  unfold clean_building_state_column clean_area_land_surface_columns
  exact map_map_comm clean_building_state_row copy_from_land_surface
    (fun r => (copyRow_bs_row_comm r).symm) t

/-! ## Destructuring `clean` -/

/-- Everything `clean` does before the completeness gate (`dropna`). -/
def preGate (t : List Row) : List Row :=
  remove_duplicate_records (clean_building_state_column
    (clean_area_land_surface_columns (clean_area_column (delete_sale_column
    (clean_sale_column (clean_price_column (clean_property_subtype_column
    (add_region_column (merge_postcodes_localities_columns
    (delete_land_plot_surface_column (delete_hyperlink_column t)))))))))))

theorem clean_eq_gate (t : List Row) :
    clean t
    = List.map clean_facades_number_row ((preGate t).filter rowComplete) :=
  rfl

theorem mem_clean_destruct {t : List Row} {r : Row} (h : r ∈ clean t) :
    ∃ r₀, r₀ ∈ preGate t ∧ rowComplete r₀ = true
      ∧ r = clean_facades_number_row r₀ := by
  rw [clean_eq_gate] at h
  rcases List.mem_map.1 h with ⟨r₀, h₀, rfl⟩
  exact ⟨r₀, (List.mem_filter.1 h₀).1, (List.mem_filter.1 h₀).2, rfl⟩

theorem forall_mem_dedupGo_of {P : Row → Prop} {seen : List DupKey}
    {l : List Row} (H : ∀ x ∈ l, P x) : ∀ x ∈ dedupGo seen l, P x :=
  fun x hx => H x (mem_of_mem_dedupGo hx)

/-- Every row of the cleaned table satisfies the region/postcode invariant. -/
theorem clean_regionOk (t : List Row) : ∀ r ∈ clean t, regionOk r := by
  rw [clean_eq_gate]
  apply forall_mem_map_of regionOk clean_facades_number_row
    (fun x => regionOk_facades_row)
  apply forall_mem_filter_of
  unfold preGate remove_duplicate_records clean_building_state_column
    clean_area_land_surface_columns clean_area_column delete_sale_column
    clean_sale_column clean_price_column clean_property_subtype_column
    add_region_column
  apply forall_mem_dedupGo_of
  apply forall_mem_map_of regionOk clean_building_state_row
    (fun x => regionOk_bs_row)
  apply forall_mem_map_of regionOk copy_from_land_surface
    (fun x => regionOk_copy_row)
  apply forall_mem_map_of regionOk clean_area_row (fun x => regionOk_area_row)
  apply forall_mem_map_of regionOk (fun r => { r with sale := none })
    (fun x h => h)
  apply forall_mem_filter_of
  apply forall_mem_map_of regionOk clean_price_row
    (fun x => regionOk_price_row)
  apply forall_mem_map_of regionOk clean_property_subtype_row
    (fun x => regionOk_subtype_row)
  intro x hx
  rcases List.mem_map.1 hx with ⟨x₀, -, rfl⟩
  rfl

/-! ## Concrete rows for counterexamples and witnesses -/

def areaZeroRow : Row :=
  { baseRow with area := some (.num 0), land_surface := some 120 }

def facadesFiveRow : Row := { baseRow with facades_number := some 5 }

def facadesNullOut : Row := { baseOut with facades_number := none }

def facadesNegRow : Row := { baseRow with facades_number := some (-1) }

def facadesNegOut : Row := { baseOut with facades_number := some (-1) }

def ambigRow : Row := { baseRow with area := some .ambig }

def ambigOut : Row := { baseRow with area := none }

/-! ## The claims -/

/-- C2: the spec says a row with `area == 0.0` and `land_surface == 120.0`
comes out with `area == 120.0`.  On the code, `clean_area_column` nulls the
zero area before `copy_from_land_surface` runs, the `row.area == 0.0` test is
false on the null, no copy happens, and `dropna` then removes the row: the
cleaned table is empty and after the two area steps the area cell is null,
not 120. -/
theorem area_copy_dead_at_failing_input :
    clean [areaZeroRow] = [] ∧
    (clean_area_land_surface_columns
      (clean_area_column [areaZeroRow])).map Row.area = [none] ∧
    areaZeroRow.area = some (.num 0) ∧
    areaZeroRow.land_surface = some 120 := by decide

/-- C3 (counterexample): the orchestrator does not apply the transforms in
the spec §4.3 order — `clean` runs the `building_state_agg` derivation after
the annuity filter and the area steps, not before them. -/
theorem clean_order_differs_from_spec : codeStepOrder ≠ specStepOrder := by
  decide

/-- C3 (amended): although the literal order differs, the two compositions
are equal as functions on tables — the `building_state` step commutes with
the sale and area steps — and the code-order pipeline is exactly `clean`. -/
theorem clean_order_extensionally_equal (t : List Row) :
    runPipeline specStepOrder t = runPipeline codeStepOrder t ∧
    runPipeline codeStepOrder t = clean t := by
  constructor
  · simp only [runPipeline, specStepOrder, codeStepOrder, List.foldl, runStep]
    rw [← bs_saleF_comm, ← bs_delSale_comm, ← bs_areaZ_comm, ← bs_copy_comm]
  · rfl

/-- C4: the claim says `bool_or_keep` is total and never aborts, returning
the boolean for native booleans and 1/0 for numerics.  On the code, every
non-string input reaches `x.isnumeric()`, an attribute that only strings
have, so the call raises `AttributeError` (uncaught: only `ValueError` is
handled) instead of returning. -/
theorem bool_or_keep_aborts_on_non_strings :
    bool_or_keep (.bool true) = .error "AttributeError" ∧
    bool_or_keep (.bool false) = .error "AttributeError" ∧
    bool_or_keep (.int 1) = .error "AttributeError" ∧
    bool_or_keep (.int 0) = .error "AttributeError" ∧
    bool_or_keep (.float 1) = .error "AttributeError" ∧
    bool_or_keep .pynone = .error "AttributeError" := by decide

/-- C7: `price_converter` strips the leading/trailing non-digit runs,
truncates from a currency symbol on, drops commas and parses a decimal,
returning null when unparsable: `"€ 1,234.00 end"` gives `1234.00` and
`"no digits"` gives null. -/
theorem price_converter_spec_examples :
    price_converter "€ 1,234.00 end" = some 1234 ∧
    price_converter "no digits" = none := by decide

/-- C8: on string inputs `bool_or_keep` returns true exactly for `"1"` and
case-insensitive `"true"`, false exactly for `"0"` and case-insensitive
`"false"` (the true-tests failing first), and null for every other string —
in particular `"maybe"` and `"yes"` give null. -/
theorem bool_or_keep_string_exactness (s : String) :
    (bool_or_keep (.str s) = .ok (some true)
      ↔ (s = "1" ∨ upperStr s = "TRUE")) ∧
    (bool_or_keep (.str s) = .ok (some false)
      ↔ (¬(s = "1" ∨ upperStr s = "TRUE")
          ∧ (s = "0" ∨ upperStr s = "FALSE"))) ∧
    (bool_or_keep (.str s) = .ok none
      ↔ (¬(s = "1" ∨ upperStr s = "TRUE")
          ∧ ¬(s = "0" ∨ upperStr s = "FALSE"))) ∧
    bool_or_keep (.str "maybe") = .ok none ∧
    bool_or_keep (.str "yes") = .ok none := by
  have h3 : (bool_or_keep (.str s) = .ok (some true)
      ↔ (s = "1" ∨ upperStr s = "TRUE")) ∧
      (bool_or_keep (.str s) = .ok (some false)
        ↔ (¬(s = "1" ∨ upperStr s = "TRUE")
            ∧ (s = "0" ∨ upperStr s = "FALSE"))) ∧
      (bool_or_keep (.str s) = .ok none
        ↔ (¬(s = "1" ∨ upperStr s = "TRUE")
            ∧ ¬(s = "0" ∨ upperStr s = "FALSE"))) := by
    unfold bool_or_keep
    by_cases h1 : s = "1" ∨ upperStr s = "TRUE" <;>
      by_cases h2 : s = "0" ∨ upperStr s = "FALSE" <;>
        simp [h1, h2]
  exact ⟨h3.1, h3.2.1, h3.2.2, by decide, by decide⟩

/-- After `clean_area_column`, no area cell is the ambiguous sentinel and
none equals zero. -/
theorem area_row_not_ambig_zero (r₀ : Row) :
    (clean_area_row r₀).area ≠ some .ambig ∧
    (clean_area_row r₀).area ≠ some (.num 0) := by
  unfold clean_area_row
  split_ifs with h
  · simp
  · constructor
    · intro hc; exact h (by rw [hc]; rfl)
    · intro hc; exact h (by rw [hc]; decide)

/-- C10: `area_remove_m2` returns the `False` sentinel whenever the direct
`int` parse fails and more than one digit-only token is present; Python's
`False == 0.0` is true, so `clean_area_column`'s zero test nulls every
sentinel cell along with genuine zero areas — after that step no area cell
is the sentinel (or zero), making ambiguity indistinguishable from null. -/
theorem ambiguous_area_sentinel_nulled (s : String) (l : List Row) (r : Row)
    (h1 : pyInt? s = none) (h2 : 2 ≤ (areaNumbers s).length)
    (h3 : r ∈ clean_area_column l) :
    area_remove_m2 s = some .ambig ∧ areaEqZero (some .ambig) = true ∧
    r.area ≠ some .ambig ∧ r.area ≠ some (.num 0) := by
  obtain ⟨r₀, -, rfl⟩ :=
    List.mem_map.1 (show r ∈ List.map clean_area_row l from h3)
  refine ⟨?_, rfl, (area_row_not_ambig_zero r₀).1,
    (area_row_not_ambig_zero r₀).2⟩
  unfold area_remove_m2
  rw [h1]
  rcases hn : areaNumbers s with _ | ⟨a, _ | ⟨b, tl⟩⟩
  · rw [hn] at h2; simp at h2
  · rw [hn] at h2; simp at h2
  · rfl

/-- C10 (witness): the sentinel for `"12 34"` and its nulling on a
one-row table. -/
theorem ambiguous_area_sentinel_nulled_witness :
    area_remove_m2 "12 34" = some .ambig ∧
    areaEqZero (some .ambig) = true ∧
    ambigOut.area ≠ some .ambig ∧ ambigOut.area ≠ some (.num 0) :=
  ambiguous_area_sentinel_nulled "12 34" [ambigRow] ambigOut
    (by decide) (by decide) (by decide)

/-- C1 (counterexample): a fully populated input row with `facades_number`
equal to 5 passes the completeness gate, after which the facades step — which
runs later — nulls its `facades_number`: the cleaned table contains a row
with a null field. -/
theorem facades_step_reintroduces_null :
    clean [facadesFiveRow] = [facadesNullOut] ∧
    facadesNullOut.facades_number = none ∧
    facadesFiveRow.facades_number = some 5 := by decide

/-- C1 (amended): every row of the cleaned table has no null field in any
column except `facades_number`, which the post-gate facades step may null
again. -/
theorem clean_no_null_except_facades (t : List Row) (r : Row)
    (h : r ∈ clean t) :
    r.source ≠ none ∧ r.postcode ≠ none ∧ r.house_is ≠ none ∧
    r.property_subtype ≠ none ∧ r.rooms_number ≠ none ∧
    r.garden_area ≠ none ∧ r.land_surface ≠ none ∧ r.kitchen_has ≠ none ∧
    r.furnished ≠ none ∧ r.open_fire ≠ none ∧ r.terrace ≠ none ∧
    r.garden ≠ none ∧ r.swimming_pool_has ≠ none ∧ r.terrace_area ≠ none ∧
    r.area ≠ none ∧ r.price ≠ none ∧ r.region ≠ none ∧
    r.building_state_agg ≠ none := by
  rcases mem_clean_destruct h with ⟨r₀, -, hc, rfl⟩
  unfold rowComplete at hc
  simp only [Bool.and_eq_true, and_assoc, Option.isSome_iff_ne_none] at hc
  obtain ⟨h1, h2, h3, h4, h5, h6, h7, h8, h9, h10, h11, h12, h13, h14, h15,
    h16, h17, h18, h19⟩ := hc
  unfold clean_facades_number_row
  split
  · split_ifs
    · exact ⟨h1, h2, h3, h4, h5, h6, h7, h9, h10, h11, h12, h13, h14, h15,
        h16, h17, h18, h19⟩
    · exact ⟨h1, h2, h3, h4, h5, h6, h7, h9, h10, h11, h12, h13, h14, h15,
        h16, h17, h18, h19⟩
  · exact ⟨h1, h2, h3, h4, h5, h6, h7, h9, h10, h11, h12, h13, h14, h15,
      h16, h17, h18, h19⟩

/-- C1 (witness): the amended statement applied to the one-row table whose
output has a nulled `facades_number`. -/
theorem clean_no_null_except_facades_witness :
    facadesNullOut.source ≠ none ∧ facadesNullOut.postcode ≠ none ∧
    facadesNullOut.house_is ≠ none ∧ facadesNullOut.property_subtype ≠ none ∧
    facadesNullOut.rooms_number ≠ none ∧ facadesNullOut.garden_area ≠ none ∧
    facadesNullOut.land_surface ≠ none ∧ facadesNullOut.kitchen_has ≠ none ∧
    facadesNullOut.furnished ≠ none ∧ facadesNullOut.open_fire ≠ none ∧
    facadesNullOut.terrace ≠ none ∧ facadesNullOut.garden ≠ none ∧
    facadesNullOut.swimming_pool_has ≠ none ∧
    facadesNullOut.terrace_area ≠ none ∧ facadesNullOut.area ≠ none ∧
    facadesNullOut.price ≠ none ∧ facadesNullOut.region ≠ none ∧
    facadesNullOut.building_state_agg ≠ none :=
  clean_no_null_except_facades [facadesFiveRow] facadesNullOut (by decide)

/-- C5: in the cleaned table, `region` is null iff `postcode` is null, and a
non-null postcode `p` yields `B` for 1000–1299, `W` for 1300–1499 and
4000–7999, and `F` otherwise. -/
theorem clean_region_matches_postcode (t : List Row) (r : Row)
    (h : r ∈ clean t) :
    (r.region = none ↔ r.postcode = none) ∧
    ∀ p : Int, r.postcode = some p →
      r.region = some (if 1000 ≤ p ∧ p ≤ 1299 then "B"
        else if (1300 ≤ p ∧ p ≤ 1499) ∨ (4000 ≤ p ∧ p ≤ 7999) then "W"
        else "F") := by
  have hro := clean_regionOk t r h
  unfold regionOk at hro
  constructor
  · cases hpc : r.postcode with
    | none => rw [hro, hpc]; simp [to_region]
    | some p =>
      rw [hro, hpc]
      have hne : to_region (some p) ≠ none := by
        simp only [to_region]; split_ifs <;> simp
      simp [hne]
  · intro p hp
    rw [hro, hp]
    simp only [to_region]
    split_ifs <;> rfl

/-- C5 (witness): the base row's postcode 1000 produces region `B`. -/
theorem clean_region_matches_postcode_witness :
    baseOut.region = some "B" ∧
    (baseOut.region = none ↔ baseOut.postcode = none) := by
  have h := clean_region_matches_postcode [baseRow] baseOut (by decide)
  have h2 := h.2 1000 rfl
  norm_num at h2
  exact ⟨h2, h.1⟩

/-- C6 (counterexample): a row with `facades_number = -1` survives the whole
pipeline with its value intact — `-1 == 0` and `-1 > 4` are both false — and
`-1` is outside `(0, 4]`. -/
theorem negative_facades_survives :
    clean [facadesNegRow] = [facadesNegOut] ∧
    facadesNegOut.facades_number = some (-1) ∧
    ¬(0 < (-1 : Rat) ∧ (-1 : Rat) ≤ 4) := by decide

/-- C6 (amended): the facades step nulls exactly the values equal to 0 or
greater than 4, so every non-null `facades_number` in the cleaned table is
nonzero and at most 4 (negative values pass through, so membership in
`(0, 4]` is not guaranteed). -/
theorem clean_facades_nonzero_le_four (t : List Row) (r : Row) (q : Rat)
    (h : r ∈ clean t) (hq : r.facades_number = some q) : q ≠ 0 ∧ q ≤ 4 := by
  rcases mem_clean_destruct h with ⟨r₀, -, -, rfl⟩
  rcases hf : r₀.facades_number with _ | q'
  · simp [clean_facades_number_row, hf] at hq
  · simp only [clean_facades_number_row, hf] at hq
    split_ifs at hq with hcond
    rw [hf] at hq
    obtain rfl : q' = q := Option.some.inj hq
    push_neg at hcond
    exact ⟨hcond.1, hcond.2⟩

/-- C6 (witness): the base row's facades value 2 is nonzero and at most 4. -/
theorem clean_facades_nonzero_le_four_witness : (2 : Rat) ≠ 0 ∧ (2 : Rat) ≤ 4 :=
  clean_facades_nonzero_le_four [baseRow] baseOut 2 (by decide) (by decide)

/-- C9: `remove_duplicate_records` returns a sublist (relative order
preserved) whose `(postcode, house_is, price, area)` keys are pairwise
distinct; every kept row is the first row of the input carrying its key;
every input key is represented; and the keys remain pairwise distinct in the
final `clean` output. -/
theorem remove_duplicates_first_wins (l t : List Row) (r r0 : Row)
    (h : r ∈ remove_duplicate_records l) (h0 : r0 ∈ l) :
    (remove_duplicate_records l).Sublist l ∧
    (remove_duplicate_records l).Pairwise
      (fun a b => dedupKey a ≠ dedupKey b) ∧
    l.find? (fun x => dedupKey x == dedupKey r) = some r ∧
    (∃ rk, rk ∈ remove_duplicate_records l ∧ dedupKey rk = dedupKey r0) ∧
    (clean t).Pairwise (fun a b => dedupKey a ≠ dedupKey b) := by
  refine ⟨dedupGo_sublist [] l, dedupGo_pairwise [] l,
    dedupGo_first_occurrence h, dedupGo_covers h0 (by simp), ?_⟩
  have hp : (preGate t).Pairwise (fun a b => dedupKey a ≠ dedupKey b) := by
    unfold preGate remove_duplicate_records
    exact dedupGo_pairwise [] _
  have hf : ((preGate t).filter rowComplete).Pairwise
      (fun a b => dedupKey a ≠ dedupKey b) :=
    hp.sublist (List.filter_sublist _)
  rw [clean_eq_gate]
  refine (List.pairwise_map).2 (hf.imp ?_)
  intro a b hne
  rw [dedupKey_facades_row, dedupKey_facades_row]
  exact hne

/-- C9 (witness): deduplicating a two-copy table keeps the first copy, and
the cleaned one-row table has pairwise distinct keys. -/
theorem remove_duplicates_first_wins_witness :
    (remove_duplicate_records [baseRow, baseRow]).Sublist
      [baseRow, baseRow] ∧
    (remove_duplicate_records [baseRow, baseRow]).Pairwise
      (fun a b => dedupKey a ≠ dedupKey b) ∧
    ([baseRow, baseRow].find?
      (fun x => dedupKey x == dedupKey baseRow)) = some baseRow ∧
    (∃ rk, rk ∈ remove_duplicate_records [baseRow, baseRow] ∧
      dedupKey rk = dedupKey baseRow) ∧
    (clean [baseRow]).Pairwise (fun a b => dedupKey a ≠ dedupKey b) :=
  remove_duplicates_first_wins [baseRow, baseRow] [baseRow] baseRow baseRow
    (by decide) (by decide)
